import Mathlib

/-
Verification of the Novrintech desktop client core
(`python_frontend_desktop copy/main.py` and
`python_frontend_desktop copy/notification_system.py`).

The embedding is shallow: each Python method is translated to a pure Lean
function.  External effects (the HTTP response, the user's answers to
message boxes, the clock) become explicit parameters; mutation of
`self.uploaded_files` becomes a value of type `Registry` threaded through;
the tkinter treeviews become lists of rows; the status labels become
inductive types whose constructors stand for the exact strings written by
the source.  Python float formatting (`format_file_size`) and datetime
formatting (`format_date`) are not representable exactly, so view
functions are parameterized over them; no claim depends on their output.
-/

namespace Novrintech

/-! ## Notification system (notification_system.py) -/

/-- The three delivery tiers of `EXESafeNotifications.show_notification`. -/
inductive Tier where
  | native
  | popup
  | log
deriving DecidableEq

/-- One delivered notification: the tier that delivered it plus its content. -/
structure Delivery where
  tier : Tier
  title : String
  message : String
deriving DecidableEq

/-- `_try_plyer_notification` (notification_system.py:49-61): calls
`plyer.notification.notify` and returns `True`; any exception is caught and
`False` is returned.  `plyerOk` is whether the notify call succeeds. -/
def try_plyer_notification (plyerOk : Bool) (title message : String) :
    Bool × List Delivery :=
  if plyerOk then (true, [⟨Tier.native, title, message⟩]) else (false, [])

/-- `_show_tkinter_notification` (notification_system.py:63-87): starts a
daemon thread showing a popup and returns `True`; if starting the thread
raises, the exception is caught and `False` is returned.  `tkOk` is whether
the thread start succeeds. -/
def show_tkinter_notification (tkOk : Bool) (title message : String) :
    Bool × List Delivery :=
  if tkOk then (true, [⟨Tier.popup, title, message⟩]) else (false, [])

/-- `_console_notification` (notification_system.py:89-92): prints the
message and returns `True`. -/
def console_notification (title message : String) : Bool × List Delivery :=
  (true, [⟨Tier.log, title, message⟩])

/-- `show_notification` (notification_system.py:31-47).  `plyer_available`
is the flag cached by `setup_notification_system`.  The result is the value
returned to the caller together with the list of deliveries performed.
Note that in the source the console tier is invoked as a bare statement
(`self._console_notification(title, message)`), so its `True` return value
is discarded and `success` keeps the value left by the first two tiers. -/
def show_notification (plyer_available plyerOk tkOk : Bool)
    (title message : String) : Bool × List Delivery :=
  let s1 : Bool × List Delivery :=
    if plyer_available then try_plyer_notification plyerOk title message
    else (false, [])
  let s2 : Bool × List Delivery :=
    if !s1.1 then
      let r := show_tkinter_notification tkOk title message
      (r.1, s1.2 ++ r.2)
    else s1
  if !s2.1 then
    let r := console_notification title message
    (s2.1, s2.2 ++ r.2)
  else s2

/-! ## Keep-alive worker (main.py:1128-1161) -/

/-- Outcome of one probe of the `/health` endpoint: either a response with
its HTTP status code, or a raised exception (connection failure, timeout). -/
inductive ProbeOutcome where
  | http (status_code : Nat)
  | exc
deriving DecidableEq

/-- The values written to `self.connection_status` by the worker:
initially `Disconnected`, then `Online` (green), `Issues` (orange) or
`Offline` (red). -/
inductive ConnLabel where
  | disconnected
  | online
  | issues
  | offline
deriving DecidableEq

/-- The status published for one probe outcome (main.py:1146-1158):
status 200 gives Online, any other response gives Issues, an exception is
caught and gives Offline. -/
def probeStatus : ProbeOutcome → ConnLabel
  | ProbeOutcome.http code => if code = 200 then ConnLabel.online else ConnLabel.issues
  | ProbeOutcome.exc => ConnLabel.offline

/-- `keep_alive_worker` (main.py:1143-1161): `while self.keep_alive_running:`
probe, publish status, sleep.  `running i` is the value of the flag read at
the top of iteration `i`; `probe i` is the outcome of iteration i's probe;
`fuel` bounds the unrolling (the loop itself has no bound).  The returned
list is the sequence of statuses published. -/
def keep_alive_worker (running : Nat → Bool) (probe : Nat → ProbeOutcome) :
    Nat → Nat → List ConnLabel
  | 0, _ => []
  | Nat.succ fuel, i =>
    if running i then
      probeStatus (probe i) :: keep_alive_worker running probe fuel (i + 1)
    else []

/-! ## Local registry (`self.uploaded_files`, main.py) -/

/-- One value of the `self.uploaded_files` dict, with the fields written by
`upload_file` (main.py:1333-1341).  `file_id` is `result.get("file_id")`,
which is `None` when the server response lacks the key. -/
structure FileRecord where
  count : Nat
  first_upload : String
  last_upload : String
  hash : String
  file_id : Option String
  uploaded_by : String
  upload_filename : String
deriving DecidableEq

/-- `self.uploaded_files`: a Python dict from display name to record,
modeled as an association list in insertion order (Python dicts preserve
insertion order; assigning an existing key keeps its position). -/
abbrev Registry := List (String × FileRecord)

/-- Dict membership/read: `self.uploaded_files[k]` / `k in self.uploaded_files`. -/
def lookup : Registry → String → Option FileRecord
  | [], _ => none
  | (n, d) :: rest, k => if n = k then some d else lookup rest k

/-- Dict assignment `self.uploaded_files[k] = v`: replaces in place if the
key exists, otherwise appends. -/
def setKey : Registry → String → FileRecord → Registry
  | [], k, v => [(k, v)]
  | (n, d) :: rest, k, v =>
    if n = k then (k, v) :: rest else (n, d) :: setKey rest k v

/-- Dict deletion `del self.uploaded_files[k]` (guarded by membership in the
source). -/
def eraseKey : Registry → String → Registry
  | [], _ => []
  | (n, d) :: rest, k => if n = k then rest else (n, d) :: eraseKey rest k

/-! ## Persistence (main.py:1199-1214) -/

/-- The JSON documents written and read by `json.dump` / `json.load`. -/
inductive Json where
  | null
  | bool (b : Bool)
  | num (n : Int)
  | str (s : String)
  | arr (elems : List Json)
  | obj (fields : List (String × Json))

/-- The JSON object written for one record of `self.uploaded_files`
(field order as in the dict literal at main.py:1333-1341). -/
def encodeFileRecord (r : FileRecord) : Json :=
  Json.obj
    [("count", Json.num (Int.ofNat r.count)),
     ("first_upload", Json.str r.first_upload),
     ("last_upload", Json.str r.last_upload),
     ("hash", Json.str r.hash),
     ("file_id", match r.file_id with
                 | some s => Json.str s
                 | none => Json.null),
     ("uploaded_by", Json.str r.uploaded_by),
     ("upload_filename", Json.str r.upload_filename)]

/-- Field read on a decoded JSON object. -/
def jfield : List (String × Json) → String → Option Json
  | [], _ => none
  | (n, j) :: rest, k => if n = k then some j else jfield rest k

/-- Reading a JSON value back as a natural number (upload count). -/
def asNat : Json → Option Nat
  | Json.num (Int.ofNat m) => some m
  | _ => none

/-- Reading a JSON value back as a string. -/
def asStr : Json → Option String
  | Json.str s => some s
  | _ => none

/-- Reading a JSON value back as a nullable string (the `file_id` field). -/
def asOptStr : Json → Option (Option String)
  | Json.str s => some (some s)
  | Json.null => some none
  | _ => none

/-- Reading one record dict back into memory.  `none` models a document
whose shape does not match what `save_file_history` writes. -/
def decodeFileRecord (j : Json) : Option FileRecord :=
  match j with
  | Json.obj fs =>
    match jfield fs "count", jfield fs "first_upload", jfield fs "last_upload",
          jfield fs "hash", jfield fs "file_id", jfield fs "uploaded_by",
          jfield fs "upload_filename" with
    | some jc, some jfu, some jlu, some jh, some jfid, some jub, some juf =>
      match asNat jc, asStr jfu, asStr jlu, asStr jh, asOptStr jfid,
            asStr jub, asStr juf with
      | some c, some fu, some lu, some h, some fid, some ub, some uf =>
        some ⟨c, fu, lu, h, fid, ub, uf⟩
      | _, _, _, _, _, _, _ => none
    | _, _, _, _, _, _, _ => none
  | _ => none

/-- Reading the whole history document back. -/
def decodeRegistry : List (String × Json) → Option Registry
  | [] => some []
  | (n, j) :: rest =>
    match decodeFileRecord j, decodeRegistry rest with
    | some r, some rs => some ((n, r) :: rs)
    | _, _ => none

/-- `save_file_history` (main.py:1211-1214): `json.dump(self.uploaded_files, f)`.
The durable store is modeled as holding the JSON document written. -/
def save_file_history (reg : Registry) : Json :=
  Json.obj (reg.map (fun p => (p.1, encodeFileRecord p.2)))

/-- `load_file_history` (main.py:1199-1209): a missing history file gives an
empty dict, a document that fails to read back gives an empty dict
(`except: self.uploaded_files = {}`), otherwise the stored mapping. -/
def load_file_history : Option Json → Registry
  | none => []
  | some (Json.obj fs) => (decodeRegistry fs).getD []
  | some _ => []

/-! ## Upload (main.py:1268-1383) -/

/-- Outcome of the POST to `/file/upload`: a response with its status code
and the `file_id` of the parsed body (when code 200 the body is read with
`result.get("file_id")`, possibly absent), or one of the caught request
exceptions. -/
inductive UploadResp where
  | http (status_code : Nat) (file_id : Option String)
  | timeout
  | connectionError
  | requestError
deriving DecidableEq

/-- The user-visible outcomes of one `upload_file` call, in the order they
happen. -/
inductive UploadEvent where
  | invalidName
  | noApiKey
  | duplicateWarning (priorName : String)
  | aborted
  | uploaded (serverName : String)
  | serverError
  | failed (status_code : Nat)
  | timedOut
  | connectionFailed
  | requestFailed
deriving DecidableEq

/-- The duplicate-check loop of `upload_file` (main.py:1300-1307): walk the
registry in order; each entry whose stored hash equals the new digest under
a different name raises an `askyesno` warning naming that entry; answering
No returns from `upload_file` at once, answering Yes continues the walk.
Returns whether the upload may proceed, and the names warned about. -/
def duplicateScan : Registry → String → String → (String → Bool) → Bool × List String
  | [], _, _, _ => (true, [])
  | (n, d) :: rest, filename, file_hash, confirm =>
    if d.hash = file_hash ∧ n ≠ filename then
      if confirm n then
        let s := duplicateScan rest filename file_hash confirm
        (s.1, n :: s.2)
      else (false, [n])
    else duplicateScan rest filename file_hash confirm

/-- The three mutations of an existing record on a repeat upload
(main.py:1329-1331): bump the count, replace the last-upload time and the
uploader; every other field is left as it was. -/
def bumpRecord (rec : FileRecord) (now user_name : String) : FileRecord :=
  { rec with count := rec.count + 1, last_upload := now, uploaded_by := user_name }

/-- The history update on a 200 response (main.py:1328-1341): an existing
record for `filename` gets its count bumped and its last-upload time and
uploader replaced; otherwise a fresh record is inserted. -/
def applyUpload (reg : Registry) (filename user_name now file_hash : String)
    (fid : Option String) (upload_filename : String) : Registry :=
  match lookup reg filename with
  | some rec => setKey reg filename (bumpRecord rec now user_name)
  | none =>
    reg ++ [(filename,
             { count := 1, first_upload := now, last_upload := now,
               hash := file_hash, file_id := fid, uploaded_by := user_name,
               upload_filename := upload_filename })]

/-- `upload_file` (main.py:1268-1383).  `filename` is the basename of the
selected file and `file_hash` its digest as computed by `get_file_hash`
(the source computes the same digest twice, at lines 1297 and 1326; being a
pure function of the file content it is passed once here).  `confirm` is
the user's answer to each duplicate warning, `resp` the outcome of the
POST, `now` the current timestamp.  The name sent to the server is
`"[" ++ user_name ++ "]_" ++ filename` (main.py:1314-1315). -/
def upload_file (api_key : String) (reg : Registry) (filename user_name : String)
    (check_duplicates : Bool) (file_hash : String) (confirm : String → Bool)
    (resp : UploadResp) (now : String) : Registry × List UploadEvent :=
  if user_name.length < 2 then (reg, [UploadEvent.invalidName])
  else if api_key = "" then (reg, [UploadEvent.noApiKey])
  else
    let scan := if check_duplicates then duplicateScan reg filename file_hash confirm
                else (true, [])
    let warnings := scan.2.map UploadEvent.duplicateWarning
    if !scan.1 then (reg, warnings ++ [UploadEvent.aborted])
    else
      match resp with
      | UploadResp.http code fid =>
        if code = 200 then
          (applyUpload reg filename user_name now file_hash fid
             ("[" ++ user_name ++ "]_" ++ filename),
           warnings ++ [UploadEvent.uploaded ("[" ++ user_name ++ "]_" ++ filename)])
        else if code = 500 then (reg, warnings ++ [UploadEvent.serverError])
        else (reg, warnings ++ [UploadEvent.failed code])
      | UploadResp.timeout => (reg, warnings ++ [UploadEvent.timedOut])
      | UploadResp.connectionError => (reg, warnings ++ [UploadEvent.connectionFailed])
      | UploadResp.requestError => (reg, warnings ++ [UploadEvent.requestFailed])

/-! ## Delete (main.py:1546-1620) -/

/-- Outcome of the DELETE request: a response with its status code, or any
exception (the source catches bare `Exception` here). -/
inductive DeleteResp where
  | http (status_code : Nat)
  | exc
deriving DecidableEq

/-- The user-visible outcomes of one `delete_file` call. -/
inductive DeleteEvent where
  | noApiKey
  | removedFromHistory
  | localRemovalSkipped
  | cancelled
  | deletedFromServer
  | deleteFailed (status_code : Nat)
  | deleteError
deriving DecidableEq

/-- `delete_file` (main.py:1546-1620).  `file_id` and `file_name` are the
values of the selected tree row.  When `file_id` is the string `"Unknown"`
the user is offered local-history removal (`confirmHistoryRemove`);
otherwise deletion is confirmed (`confirmDelete`) and the DELETE issued,
the local record being dropped only on a 200 response. -/
def delete_file (api_key : String) (reg : Registry) (file_id file_name : String)
    (confirmHistoryRemove confirmDelete : Bool) (resp : DeleteResp) :
    Registry × List DeleteEvent :=
  if api_key = "" then (reg, [DeleteEvent.noApiKey])
  else if file_id = "Unknown" then
    if confirmHistoryRemove ∧ (lookup reg file_name).isSome then
      (eraseKey reg file_name, [DeleteEvent.removedFromHistory])
    else (reg, [DeleteEvent.localRemovalSkipped])
  else if !confirmDelete then (reg, [DeleteEvent.cancelled])
  else
    match resp with
    | DeleteResp.http code =>
      if code = 200 then
        (if (lookup reg file_name).isSome then eraseKey reg file_name else reg,
         [DeleteEvent.deletedFromServer])
      else (reg, [DeleteEvent.deleteFailed code])
    | DeleteResp.exc => (reg, [DeleteEvent.deleteError])

/-! ## File list refresh (main.py:1385-1474) -/

/-- One entry of the remote listing as read from the response body
(main.py:1406-1416); `file_type` holds the value of
`file_info.get("file_type", "Unknown")`. -/
structure RemoteFile where
  file_id : String
  file_name : String
  file_type : String
  file_size : Nat
  created_at : String
deriving DecidableEq

/-- One row of the files treeview: the five values inserted. -/
structure Row where
  id : String
  name : String
  ftype : String
  size : String
  date : String
deriving DecidableEq

/-- Outcome of the GET on `/file/list`: a response with status code and the
parsed file list, or a caught `RequestException`. -/
inductive ListResp where
  | http (status_code : Nat) (files : List RemoteFile)
  | exc
deriving DecidableEq

/-- The values written to `self.files_status_label`, one constructor per
distinct message of the source. -/
inductive FilesLabel where
  | configureApiKey
  | loadedFiles (n : Nat)
  | noServerFiles
  | localHistoryUnavailable
  | localHistoryConnectionError
  | noHistoryFiles
  | errorLoadingFiles
deriving DecidableEq

/-- The remote fetch failed: a transport exception or a non-success
response — exactly the cases in which main.py:1423-1431 falls back to the
local history. -/
def transportFail : ListResp → Prop
  | ListResp.http code _ => code ≠ 200
  | ListResp.exc => True

/-- The file-type guess of `refresh_files_from_history` (main.py:1443-1457). -/
def guess_file_type (filename : String) : String :=
  if (filename.splitOn ".").length ≤ 1 then "Unknown"
  else
    let ext := ((filename.splitOn ".").getLastD "").toLower
    if ["txt", "md", "log"].contains ext then "text/plain"
    else if ["jpg", "jpeg", "png", "gif"].contains ext then "image/*"
    else if ["pdf"].contains ext then "application/pdf"
    else if ["zip", "rar"].contains ext then "application/zip"
    else "*." ++ ext

/-- The row inserted for one local-history record (main.py:1461-1467).
`data.get("file_id", "Unknown")` reads the stored value, which is the JSON
null (rendered by the widget as the string `"None"`) when the server reply
carried no id; the `"Unknown"` default applies only to legacy dicts lacking
the key, which the writer never produces.  The size column is the literal
`"Unknown"`. -/
def historyRow (fmtDate : String → String) (filename : String) (data : FileRecord) : Row :=
  { id := match data.file_id with
          | some s => s
          | none => "None",
    name := filename,
    ftype := guess_file_type filename,
    size := "Unknown",
    date := fmtDate data.last_upload }

/-- The row inserted for one remote entry (main.py:1410-1416). -/
def remoteRow (fmtSize : Nat → String) (fmtDate : String → String) (f : RemoteFile) : Row :=
  { id := f.file_id, name := f.file_name, ftype := f.file_type,
    size := fmtSize f.file_size, date := fmtDate f.created_at }

/-- `refresh_files_from_history` (main.py:1433-1474): renders one row per
registry entry; when nothing was added it overwrites the status label with
the no-history message (`some` component). -/
def refresh_files_from_history (fmtDate : String → String) (reg : Registry) :
    List Row × Option FilesLabel :=
  let rows := reg.map (fun p => historyRow fmtDate p.1 p.2)
  (rows, if rows.length = 0 then some FilesLabel.noHistoryFiles else none)

/-- `refresh_files` (main.py:1385-1431).  `prevRows` is the tree content
before the call: the early return on a missing API key leaves it in place.
On a 200 response the tree is rebuilt from the remote entries alone; on a
non-200 response or a request exception the label is set to the
corresponding local-history message and `refresh_files_from_history` runs
(whose own empty-history label, written later, wins when present). -/
def refresh_files (fmtSize : Nat → String) (fmtDate : String → String)
    (api_key : String) (prevRows : List Row) (resp : ListResp) (reg : Registry) :
    List Row × FilesLabel :=
  if api_key = "" then (prevRows, FilesLabel.configureApiKey)
  else
    match resp with
    | ListResp.http code files =>
      if code = 200 then
        (files.map (remoteRow fmtSize fmtDate),
         if files.length = 0 then FilesLabel.noServerFiles
         else FilesLabel.loadedFiles files.length)
      else
        let r := refresh_files_from_history fmtDate reg
        (r.1, r.2.getD FilesLabel.localHistoryUnavailable)
    | ListResp.exc =>
      let r := refresh_files_from_history fmtDate reg
      (r.1, r.2.getD FilesLabel.localHistoryConnectionError)

/-- The labels that tell the user the view was rendered from the local
history alone (the offline/local-only flag). -/
def isLocalOnlyLabel : FilesLabel → Bool
  | FilesLabel.localHistoryUnavailable => true
  | FilesLabel.localHistoryConnectionError => true
  | FilesLabel.noHistoryFiles => true
  | _ => false

/-! ## Spec-side reconciliation (for the refinement comparison of C5) -/

/-- Scan for the first closing bracket followed by an underscore and return
what follows it. -/
def dropThroughTag : List Char → Option (List Char)
  | [] => none
  | ']' :: '_' :: rest => some rest
  | _ :: rest => dropThroughTag rest

/-- Modelled from the spec: the uploader-prefix convention is the
`"[user]_"` prefix added at upload; stripping it removes a leading
bracketed tag through the first closing-bracket-underscore (on the
character list of the name). -/
def stripUploaderTag (s : String) : String :=
  match s.data with
  | '[' :: rest =>
    match dropThroughTag rest with
    | some r => String.mk r
    | none => s
  | _ => s

/-- Modelled from the spec (section 4.3 Reconciler, absent from the code):
for each remote entry, find a local record whose display name matches
after stripping the uploader-prefix convention and enrich it with that
record's uploader; entries without a local match show uploader
`"Unknown"`. -/
def reconcileSpecView (files : List RemoteFile) (reg : Registry) :
    List (RemoteFile × String) :=
  files.map (fun f =>
    match lookup reg (stripUploaderTag f.file_name) with
    | some rec => (f, rec.uploaded_by)
    | none => (f, "Unknown"))

/-! ## Upsert sequences (for the round-trip claim C6) -/

/-- The data of one successful upload confirmation, driving one registry
upsert. -/
structure UpsertOp where
  filename : String
  user_name : String
  now : String
  file_hash : String
  fid : Option String
deriving DecidableEq

/-- One upsert: the registry mutation `upload_file` performs on a 200
response. -/
def applyUpsert (reg : Registry) (op : UpsertOp) : Registry :=
  applyUpload reg op.filename op.user_name op.now op.file_hash op.fid
    ("[" ++ op.user_name ++ "]_" ++ op.filename)

/-- The in-memory registry after a sequence of upserts starting empty. -/
def buildRegistry (ops : List UpsertOp) : Registry :=
  ops.foldl applyUpsert []

/-! ## Helper lemmas -/

/-- Unrolling the keep-alive loop: with the stop flag cleared from
iteration `stopAt` on and enough fuel, the worker starting at iteration `i`
publishes exactly one status per remaining iteration and then exits. -/
theorem keep_alive_worker_run (stopAt : Nat) (probe : Nat → ProbeOutcome) :
    ∀ (fuel i : Nat), stopAt ≤ i + fuel →
      keep_alive_worker (fun j => decide (j < stopAt)) probe fuel i
        = (List.range (stopAt - i)).map (fun k => probeStatus (probe (i + k))) := by
  intro fuel
  induction fuel with
  | zero =>
    intro i h
    simp only [Nat.add_zero] at h
    simp [keep_alive_worker, Nat.sub_eq_zero_of_le h]
  | succ fuel ih =>
    intro i h
    by_cases hlt : i < stopAt
    · have hrec := ih (i + 1) (by omega)
      have hm : stopAt - i = (stopAt - (i + 1)) + 1 := by omega
      rw [keep_alive_worker]
      simp only [decide_eq_true hlt, if_true]
      rw [hrec, hm, List.range_succ_eq_map, List.map_cons, List.map_map]
      refine congrArg₂ List.cons (congrArg (fun x => probeStatus (probe x)) ?_) ?_
      · omega
      · refine congrArg (fun f => List.map f (List.range (stopAt - (i + 1)))) ?_
        funext k
        exact congrArg (fun x => probeStatus (probe x)) (by omega)
    · rw [keep_alive_worker]
      simp [hlt, Nat.sub_eq_zero_of_le (by omega : stopAt ≤ i)]

/-! ## C1 -/

/-- C1 counterexample: with the native tier failing and the popup tier
failing, `show_notification` does invoke the console tier (the message is
delivered on the log tier) but returns `False`, not a success indicator:
the console tier's return value is discarded by the source. -/
theorem show_notification_log_fallback_returns_false :
    show_notification true false false "T" "B"
      = (false, [⟨Tier.log, "T", "B"⟩]) := by
  rfl

/-- C1 amended: whenever the native tier is unavailable or fails and the
popup tier fails, the call delivers the message via the console/log tier
only, and returns `false` — the log tier's success is not reflected in the
returned indicator, and the returned Boolean never identifies a tier. -/
theorem show_notification_log_fallback (pa pok tok : Bool) (title msg : String)
    (hnative : pa = false ∨ pok = false) (htk : tok = false) :
    show_notification pa pok tok title msg
      = (false, [⟨Tier.log, title, msg⟩]) := by
  subst htk
  rcases hnative with h | h
  · subst h
    simp [show_notification, show_tkinter_notification, console_notification]
  · subst h
    cases pa <;>
      simp [show_notification, try_plyer_notification,
            show_tkinter_notification, console_notification]

/-- Witness for C1's amended theorem at a concrete input. -/
theorem show_notification_log_fallback_witness :
    (((true : Bool) = false ∨ (false : Bool) = false) ∧ (false : Bool) = false)
      ∧ show_notification true false false "T" "B"
          = (false, [⟨Tier.log, "T", "B"⟩]) :=
  ⟨⟨Or.inr rfl, rfl⟩,
   show_notification_log_fallback true false false "T" "B" (Or.inr rfl) rfl⟩

/-! ## C2 -/

/-- C2 counterexample: a probe that returns a non-success response (status
500) drives the published status to Issues (the orange label), not to
Offline as the claim states. -/
theorem keep_alive_non_success_not_offline :
    keep_alive_worker (fun _ => true) (fun _ => ProbeOutcome.http 500) 1 0
        = [ConnLabel.issues]
      ∧ ConnLabel.issues ≠ ConnLabel.offline := by
  exact ⟨rfl, by decide⟩

/-- C2 amended: per probe, an exception gives Offline and a 200 response
gives Online, but a non-success response gives Issues (the degraded
label), not Offline; the probe outcome sequence exception, exception,
success, exception produces exactly Offline, Offline, Online, Offline; and
no probe ever publishes the initial Disconnected value, so no invalid
intermediate value occurs. -/
theorem keep_alive_status_map (code : Nat) (hcode : code ≠ 200) :
    probeStatus (ProbeOutcome.http code) = ConnLabel.issues
      ∧ probeStatus (ProbeOutcome.http 200) = ConnLabel.online
      ∧ probeStatus ProbeOutcome.exc = ConnLabel.offline
      ∧ keep_alive_worker (fun _ => true)
          (fun i => [ProbeOutcome.exc, ProbeOutcome.exc, ProbeOutcome.http 200,
                     ProbeOutcome.exc].getD i ProbeOutcome.exc) 4 0
          = [ConnLabel.offline, ConnLabel.offline, ConnLabel.online,
             ConnLabel.offline]
      ∧ ∀ oc, probeStatus oc ≠ ConnLabel.disconnected := by
  refine ⟨by simp [probeStatus, hcode], rfl, rfl, by rfl, ?_⟩
  intro oc
  cases oc with
  | http c =>
    simp only [probeStatus]
    split <;> simp
  | exc => simp [probeStatus]

/-- Witness for C2's amended theorem at status code 500. -/
theorem keep_alive_status_map_witness :
    (500 ≠ 200)
      ∧ (probeStatus (ProbeOutcome.http 500) = ConnLabel.issues
         ∧ probeStatus (ProbeOutcome.http 200) = ConnLabel.online
         ∧ probeStatus ProbeOutcome.exc = ConnLabel.offline
         ∧ keep_alive_worker (fun _ => true)
             (fun i => [ProbeOutcome.exc, ProbeOutcome.exc, ProbeOutcome.http 200,
                        ProbeOutcome.exc].getD i ProbeOutcome.exc) 4 0
             = [ConnLabel.offline, ConnLabel.offline, ConnLabel.online,
                ConnLabel.offline]
         ∧ ∀ oc, probeStatus oc ≠ ConnLabel.disconnected) :=
  ⟨by decide, keep_alive_status_map 500 (by decide)⟩

/-! ## C9 -/

/-- C9: with the stop flag set for the first `stopAt` iterations and
cleared from then on, and enough fuel to reach the stop, the worker
publishes exactly one status per iteration before the stop — every probe
outcome, including an exception, is folded into a status and never
terminates the loop — and performs no iteration at or after the stop: the
flag is observed at the top of each iteration, so the loop exits within one
interval of `stop()`. -/
theorem keep_alive_stop_within_one_interval (stopAt fuel : Nat)
    (probe : Nat → ProbeOutcome) (hfuel : stopAt ≤ fuel) :
    keep_alive_worker (fun i => decide (i < stopAt)) probe fuel 0
      = (List.range stopAt).map (fun i => probeStatus (probe i)) := by
  rw [keep_alive_worker_run stopAt probe fuel 0 (by omega)]
  simp

/-- Witness for C9 at a concrete stop time, fuel and probe sequence. -/
theorem keep_alive_stop_within_one_interval_witness :
    2 ≤ 3
      ∧ keep_alive_worker (fun i => decide (i < 2)) (fun _ => ProbeOutcome.exc) 3 0
          = (List.range 2).map (fun i => probeStatus ((fun _ => ProbeOutcome.exc) i)) :=
  ⟨by decide,
   keep_alive_stop_within_one_interval 2 3 (fun _ => ProbeOutcome.exc) (by decide)⟩

/-! ## Registry lemmas -/

theorem lookup_setKey_self : ∀ (reg : Registry) (k : String) (v : FileRecord),
    lookup (setKey reg k v) k = some v := by
  intro reg k v
  induction reg with
  | nil => simp [setKey, lookup]
  | cons p rest ih =>
    obtain ⟨n, d⟩ := p
    by_cases hn : n = k
    · simp [setKey, lookup, hn]
    · simp [setKey, lookup, hn, ih]

theorem lookup_setKey_ne : ∀ (reg : Registry) (k : String) (v : FileRecord)
    (k2 : String), k2 ≠ k → lookup (setKey reg k v) k2 = lookup reg k2 := by
  intro reg k v k2 hne
  have hkk2 : ¬k = k2 := fun h => hne h.symm
  induction reg with
  | nil => simp [setKey, lookup, hkk2]
  | cons p rest ih =>
    obtain ⟨n, d⟩ := p
    by_cases hn : n = k
    · subst hn
      simp [setKey, lookup, hkk2]
    · by_cases hn2 : n = k2
      · simp [setKey, lookup, hn, hn2, hne]
      · simp [setKey, lookup, hn, hn2, ih]

theorem setKey_length_of_lookup : ∀ (reg : Registry) (k : String)
    (r v : FileRecord), lookup reg k = some r →
    (setKey reg k v).length = reg.length := by
  intro reg k r v hmem
  induction reg with
  | nil => simp [lookup] at hmem
  | cons p rest ih =>
    obtain ⟨n, d⟩ := p
    by_cases hn : n = k
    · simp [setKey, hn]
    · simp only [lookup, if_neg hn] at hmem
      simp [setKey, hn, ih hmem]

/-! ## Duplicate-scan lemmas -/

theorem duplicateScan_noMatch : ∀ (reg : Registry) (filename file_hash : String)
    (confirm : String → Bool),
    (∀ p ∈ reg, ¬((p : String × FileRecord).2.hash = file_hash ∧ p.1 ≠ filename)) →
    duplicateScan reg filename file_hash confirm = (true, []) := by
  intro reg filename file_hash confirm h
  induction reg with
  | nil => rfl
  | cons p rest ih =>
    obtain ⟨n, d⟩ := p
    have hhead := h (n, d) (List.mem_cons_self _ _)
    simp only [duplicateScan, if_neg hhead]
    exact ih (fun q hq => h q (List.mem_cons_of_mem _ hq))

theorem duplicateScan_confirmAll : ∀ (reg : Registry) (filename file_hash : String),
    (duplicateScan reg filename file_hash (fun _ => true)).1 = true := by
  intro reg filename file_hash
  induction reg with
  | nil => rfl
  | cons p rest ih =>
    obtain ⟨n, d⟩ := p
    by_cases hc : d.hash = file_hash ∧ n ≠ filename
    · simp [duplicateScan, hc, ih]
    · simp [duplicateScan, hc, ih]

/-- When exactly one registry entry carries the digest being uploaded and it
sits under a different name, the duplicate scan warns once about that name
and proceeds exactly when the user confirms. -/
theorem duplicateScan_soleMatch : ∀ (reg : Registry) (a b D : String)
    (rec : FileRecord) (confirm : String → Bool),
    lookup reg a = some rec → rec.hash = D → a ≠ b →
    (∀ p ∈ reg, (p : String × FileRecord).2.hash = D → p.1 = a) →
    (reg.map Prod.fst).Nodup →
    duplicateScan reg b D confirm
      = if confirm a then (true, [a]) else (false, [a]) := by
  intro reg a b D rec confirm hmem hhash hab honly hnodup
  induction reg with
  | nil => simp [lookup] at hmem
  | cons p rest ih =>
    obtain ⟨n, d⟩ := p
    simp only [List.map_cons, List.nodup_cons] at hnodup
    by_cases hn : n = a
    · subst hn
      simp only [lookup] at hmem
      simp at hmem
      subst hmem
      have hcond : d.hash = D ∧ n ≠ b := ⟨hhash, hab⟩
      have hrest : duplicateScan rest b D confirm = (true, []) := by
        refine duplicateScan_noMatch rest b D confirm ?_
        intro q hq hqc
        have hqa := honly q (List.mem_cons_of_mem _ hq) hqc.1
        exact hnodup.1 (hqa ▸ List.mem_map_of_mem Prod.fst hq)
      by_cases hcf : confirm n = true
      · simp [duplicateScan, hcond, hcf, hrest]
      · simp only [Bool.not_eq_true] at hcf
        simp [duplicateScan, hcond, hcf]
    · have hd : ¬(d.hash = D ∧ n ≠ b) := by
        rintro ⟨hdh, -⟩
        exact hn (honly (n, d) (List.mem_cons_self _ _) hdh)
      simp only [lookup, if_neg hn] at hmem
      simp only [duplicateScan, if_neg hd]
      exact ih hmem (fun q hq => honly q (List.mem_cons_of_mem _ hq)) hnodup.2

/-! ## C3 -/

/-- C3: with an API key configured, whenever the remote listing fetch
raises a transport error or returns a non-success status, `refresh_files`
renders exactly the local registry's entries (one row per record, in
order) and leaves the status label on one of the local-only/offline
messages; no exception reaches the caller (the embedding is total and the
fallback path catches internally). -/
theorem refresh_files_degrades_to_history (fmtS : Nat → String)
    (fmtD : String → String) (key : String) (prev : List Row) (resp : ListResp)
    (reg : Registry) (hkey : key ≠ "") (hfail : transportFail resp) :
    (refresh_files fmtS fmtD key prev resp reg).1
        = reg.map (fun p => historyRow fmtD p.1 p.2)
      ∧ isLocalOnlyLabel (refresh_files fmtS fmtD key prev resp reg).2 = true := by
  cases resp with
  | http code files =>
    have hc : code ≠ 200 := hfail
    constructor
    · simp [refresh_files, refresh_files_from_history, hkey, hc]
    · simp only [refresh_files, refresh_files_from_history, if_neg hkey]
      rw [if_neg hc]
      split <;> rfl
  | exc =>
    constructor
    · simp [refresh_files, refresh_files_from_history, hkey]
    · simp only [refresh_files, refresh_files_from_history, if_neg hkey]
      split <;> rfl

/-- Witness for C3 on a one-record registry and a connection error. -/
theorem refresh_files_degrades_to_history_witness :
    ("k" ≠ "" ∧ transportFail ListResp.exc)
      ∧ ((refresh_files (fun _ => "") (fun s => s) "k" [] ListResp.exc
            [("a.txt", ⟨1, "t1", "t2", "h", none, "alice", "x"⟩)]).1
           = [("a.txt", (⟨1, "t1", "t2", "h", none, "alice", "x"⟩ : FileRecord))].map
               (fun p => historyRow (fun s => s) p.1 p.2)
         ∧ isLocalOnlyLabel
             (refresh_files (fun _ => "") (fun s => s) "k" [] ListResp.exc
               [("a.txt", ⟨1, "t1", "t2", "h", none, "alice", "x"⟩)]).2 = true) :=
  ⟨⟨by decide, trivial⟩,
   refresh_files_degrades_to_history (fun _ => "") (fun s => s) "k" [] ListResp.exc
     [("a.txt", ⟨1, "t1", "t2", "h", none, "alice", "x"⟩)] (by decide) trivial⟩

/-! ## C5 -/

/-- C5 counterexample: the successful-fetch view is rendered from the
remote entries alone — two registries whose matching record (display name
matching after stripping the uploader tag) carries different uploaders
produce the identical view, while the spec's reconciliation produces
different enriched views.  So the view performs no display-name matching
and shows no uploader metadata. -/
theorem refresh_files_no_uploader_enrichment :
    refresh_files (fun _ => "") (fun s => s) "k" []
        (ListResp.http 200 [⟨"7", "[alice]_a.txt", "text/plain", 0, "2024-01-02"⟩])
        [("a.txt", ⟨1, "t1", "t2", "h", none, "alice", "[alice]_a.txt"⟩)]
      = refresh_files (fun _ => "") (fun s => s) "k" []
        (ListResp.http 200 [⟨"7", "[alice]_a.txt", "text/plain", 0, "2024-01-02"⟩])
        [("a.txt", ⟨1, "t1", "t2", "h", none, "bob", "[alice]_a.txt"⟩)]
    ∧ reconcileSpecView [⟨"7", "[alice]_a.txt", "text/plain", 0, "2024-01-02"⟩]
        [("a.txt", ⟨1, "t1", "t2", "h", none, "alice", "[alice]_a.txt"⟩)]
      ≠ reconcileSpecView [⟨"7", "[alice]_a.txt", "text/plain", 0, "2024-01-02"⟩]
        [("a.txt", ⟨1, "t1", "t2", "h", none, "bob", "[alice]_a.txt"⟩)] :=
  ⟨rfl, by decide⟩

/-- C5 amended: on a successful fetch `refresh_files` renders each remote
entry's own fields verbatim, independently of the local registry: no local
record is consulted, no uploader metadata is shown.  (Uploader attribution
with an `"Unknown"` default appears only in the separate history pane.) -/
theorem refresh_files_renders_remote_verbatim (fmtS : Nat → String)
    (fmtD : String → String) (key : String) (prev : List Row)
    (files : List RemoteFile) (reg reg2 : Registry) (hkey : key ≠ "") :
    refresh_files fmtS fmtD key prev (ListResp.http 200 files) reg
        = refresh_files fmtS fmtD key prev (ListResp.http 200 files) reg2
      ∧ (refresh_files fmtS fmtD key prev (ListResp.http 200 files) reg).1
        = files.map (remoteRow fmtS fmtD) := by
  constructor <;> simp [refresh_files, hkey]

/-- Witness for C5's amended theorem on concrete inputs. -/
theorem refresh_files_renders_remote_verbatim_witness :
    ("k" ≠ "")
      ∧ (refresh_files (fun _ => "") (fun s => s) "k" []
            (ListResp.http 200 [⟨"7", "b.txt", "text/plain", 0, "d"⟩])
            [("a.txt", ⟨1, "t1", "t2", "h", none, "alice", "x"⟩)]
          = refresh_files (fun _ => "") (fun s => s) "k" []
            (ListResp.http 200 [⟨"7", "b.txt", "text/plain", 0, "d"⟩]) []
        ∧ (refresh_files (fun _ => "") (fun s => s) "k" []
            (ListResp.http 200 [⟨"7", "b.txt", "text/plain", 0, "d"⟩])
            [("a.txt", ⟨1, "t1", "t2", "h", none, "alice", "x"⟩)]).1
          = [(⟨"7", "b.txt", "text/plain", 0, "d"⟩ : RemoteFile)].map
              (remoteRow (fun _ => "") (fun s => s))) :=
  ⟨by decide,
   refresh_files_renders_remote_verbatim (fun _ => "") (fun s => s) "k" []
     [⟨"7", "b.txt", "text/plain", 0, "d"⟩]
     [("a.txt", ⟨1, "t1", "t2", "h", none, "alice", "x"⟩)] [] (by decide)⟩

/-! ## C7 -/

/-- C7: with an API key configured, `delete_file` removes the local record
exactly when the remote deletion is acknowledged with HTTP 200 (after the
user confirms), or when the remote id is the `"Unknown"` marker and the
user opts in to local-only removal of an existing record; in every other
outcome — user declining either dialog, a non-success response, or a
raised exception — the registry is returned unchanged. -/
theorem delete_file_registry_characterization (key : String) (reg : Registry)
    (file_id file_name : String) (cHist cDel : Bool) (resp : DeleteResp)
    (hkey : key ≠ "") :
    (delete_file key reg file_id file_name cHist cDel resp).1
      = if file_id = "Unknown" then
          (if cHist = true ∧ (lookup reg file_name).isSome then
             eraseKey reg file_name
           else reg)
        else if cDel = true ∧ resp = DeleteResp.http 200 then
          (if (lookup reg file_name).isSome then eraseKey reg file_name else reg)
        else reg := by
  simp only [delete_file, if_neg hkey]
  by_cases hid : file_id = "Unknown"
  · simp only [hid, if_pos rfl]
    by_cases hh : cHist = true ∧ (lookup reg file_name).isSome
    · simp [hh]
    · simp [hh]
  · simp only [if_neg hid]
    cases cDel with
    | false => cases resp <;> simp
    | true =>
      cases resp with
      | http code =>
        by_cases hc : code = 200
        · subst hc
          simp
        · have : ¬(DeleteResp.http code = DeleteResp.http 200) := by
            simp [hc]
          simp only [Bool.not_true, if_neg hc]
          simp [this, hc]
      | exc => simp

/-- Witness for C7: unknown remote id, user opts in, record present. -/
theorem delete_file_registry_characterization_witness :
    ("k" ≠ "")
      ∧ (delete_file "k" [("a.txt", ⟨1, "t1", "t2", "h", none, "alice", "x"⟩)]
           "Unknown" "a.txt" true false DeleteResp.exc).1
        = if ("Unknown" : String) = "Unknown" then
            (if (true : Bool) = true
                ∧ (lookup [("a.txt", ⟨1, "t1", "t2", "h", none, "alice", "x"⟩)]
                     "a.txt").isSome then
               eraseKey [("a.txt", ⟨1, "t1", "t2", "h", none, "alice", "x"⟩)] "a.txt"
             else [("a.txt", ⟨1, "t1", "t2", "h", none, "alice", "x"⟩)])
          else if (false : Bool) = true ∧ DeleteResp.exc = DeleteResp.http 200 then
            (if (lookup [("a.txt", ⟨1, "t1", "t2", "h", none, "alice", "x"⟩)]
                   "a.txt").isSome then
               eraseKey [("a.txt", ⟨1, "t1", "t2", "h", none, "alice", "x"⟩)] "a.txt"
             else [("a.txt", ⟨1, "t1", "t2", "h", none, "alice", "x"⟩)])
          else [("a.txt", ⟨1, "t1", "t2", "h", none, "alice", "x"⟩)] :=
  ⟨by decide,
   delete_file_registry_characterization "k"
     [("a.txt", ⟨1, "t1", "t2", "h", none, "alice", "x"⟩)]
     "Unknown" "a.txt" true false DeleteResp.exc (by decide)⟩

/-! ## C4 -/

/-- C4: with duplicate checking enabled, when the registry holds exactly
one record whose stored hash equals the new upload's digest `D` and that
record sits under name `a`: uploading as a different name `b` raises the
confirmable duplicate warning referencing `a`, and on decline the call
returns with the registry untouched and no upload; on confirmation the
upload proceeds.  Re-uploading digest `D` under the existing name `a`
raises no warning and, on a 200 response, bumps that record's count and
last-upload timestamp in place — the registry keeps the same length, no
new record is created. -/
theorem upload_file_duplicate_detection (reg : Registry)
    (a b D user key now : String) (rec : FileRecord) (fid : Option String)
    (confirm : String → Bool)
    (hlen : 2 ≤ user.length) (hkey : key ≠ "")
    (hmem : lookup reg a = some rec) (hhash : rec.hash = D) (hab : a ≠ b)
    (honly : ∀ p ∈ reg, (p : String × FileRecord).2.hash = D → p.1 = a)
    (hnodup : (reg.map Prod.fst).Nodup) :
    (confirm a = false →
       upload_file key reg b user true D confirm (UploadResp.http 200 fid) now
         = (reg, [UploadEvent.duplicateWarning a, UploadEvent.aborted]))
    ∧ (confirm a = true →
       upload_file key reg b user true D confirm (UploadResp.http 200 fid) now
         = (applyUpload reg b user now D fid ("[" ++ user ++ "]_" ++ b),
            [UploadEvent.duplicateWarning a,
             UploadEvent.uploaded ("[" ++ user ++ "]_" ++ b)]))
    ∧ upload_file key reg a user true D confirm (UploadResp.http 200 fid) now
        = (setKey reg a (bumpRecord rec now user),
           [UploadEvent.uploaded ("[" ++ user ++ "]_" ++ a)])
    ∧ (setKey reg a (bumpRecord rec now user)).length = reg.length := by
  have hlt : ¬(user.length < 2) := by omega
  have hscanb := duplicateScan_soleMatch reg a b D rec confirm hmem hhash hab honly hnodup
  have hscana : duplicateScan reg a D confirm = (true, []) := by
    refine duplicateScan_noMatch reg a D confirm ?_
    rintro p hp ⟨hph, hpa⟩
    exact hpa (honly p hp hph)
  refine ⟨?_, ?_, ?_, ?_⟩
  · intro hcf
    simp [upload_file, hlt, hkey, hscanb, hcf]
  · intro hcf
    simp [upload_file, hlt, hkey, hscanb, hcf]
  · simp [upload_file, hlt, hkey, hscana, applyUpload, hmem]
  · exact setKey_length_of_lookup reg a rec _ hmem

/-- Witness for C4: a one-record registry holding digest `d0` as `a.txt`;
re-uploading the same digest as `a.txt` bumps the count in place. -/
theorem upload_file_duplicate_detection_witness :
    (2 ≤ ("bob" : String).length ∧ ("k" : String) ≠ ""
      ∧ ("a.txt" : String) ≠ "b.txt")
    ∧ upload_file "k" [("a.txt", ⟨1, "t0", "t0", "d0", some "id1", "alice", "x"⟩)]
        "a.txt" "bob" true "d0" (fun _ => false) (UploadResp.http 200 (some "id2")) "t1"
      = ([("a.txt", ⟨2, "t0", "t1", "d0", some "id1", "bob", "x"⟩)],
         [UploadEvent.uploaded "[bob]_a.txt"]) :=
  ⟨⟨by decide, by decide, by decide⟩,
   (upload_file_duplicate_detection
      [("a.txt", ⟨1, "t0", "t0", "d0", some "id1", "alice", "x"⟩)]
      "a.txt" "b.txt" "d0" "bob" "k" "t1"
      ⟨1, "t0", "t0", "d0", some "id1", "alice", "x"⟩ (some "id2") (fun _ => false)
      (by decide) (by decide) (by decide) (by decide) (by decide) (by decide)
      (by decide)).2.2.1⟩

/-! ## C10 -/

/-- C10: a successful repeat upload under a display name already present in
the registry replaces that record in place, mutating only `count` (bumped
by one), `last_upload` (set to the new timestamp) and `uploaded_by`; its
`hash`, `file_id`, `first_upload` and `upload_filename` keep their previous
values — for every newly computed digest `file_hash`, including one
different from the stored `rec.hash`, so the stored hash can go stale —
and every other record is untouched. -/
theorem upload_file_repeat_frame (reg : Registry)
    (filename user key now file_hash : String) (rec : FileRecord)
    (fid : Option String) (check : Bool)
    (hlen : 2 ≤ user.length) (hkey : key ≠ "")
    (hmem : lookup reg filename = some rec) :
    (upload_file key reg filename user check file_hash (fun _ => true)
        (UploadResp.http 200 fid) now).1
      = setKey reg filename (bumpRecord rec now user)
    ∧ lookup (upload_file key reg filename user check file_hash (fun _ => true)
        (UploadResp.http 200 fid) now).1 filename
      = some (bumpRecord rec now user)
    ∧ (bumpRecord rec now user).hash = rec.hash
    ∧ (bumpRecord rec now user).file_id = rec.file_id
    ∧ (bumpRecord rec now user).first_upload = rec.first_upload
    ∧ (bumpRecord rec now user).upload_filename = rec.upload_filename
    ∧ ∀ other, other ≠ filename →
        lookup (upload_file key reg filename user check file_hash (fun _ => true)
          (UploadResp.http 200 fid) now).1 other = lookup reg other := by
  have hlt : ¬(user.length < 2) := by omega
  have hupd : (upload_file key reg filename user check file_hash (fun _ => true)
      (UploadResp.http 200 fid) now).1
      = setKey reg filename (bumpRecord rec now user) := by
    cases check with
    | false => simp [upload_file, hlt, hkey, applyUpload, hmem]
    | true =>
      simp [upload_file, hlt, hkey, applyUpload, hmem, duplicateScan_confirmAll]
  refine ⟨hupd, ?_, rfl, rfl, rfl, rfl, ?_⟩
  · rw [hupd]
    exact lookup_setKey_self reg filename _
  · intro other hne
    rw [hupd]
    exact lookup_setKey_ne reg filename _ other hne

/-- Witness for C10: the new digest differs from the stored one, yet the
stored hash (and id, first-upload time, server-side name) survive and only
count, last-upload and uploader change. -/
theorem upload_file_repeat_frame_witness :
    (2 ≤ ("bob" : String).length ∧ ("k" : String) ≠ ""
      ∧ lookup [("a.txt", ⟨1, "t0", "t0", "d0", some "id1", "alice", "x"⟩)] "a.txt"
          = some ⟨1, "t0", "t0", "d0", some "id1", "alice", "x"⟩)
    ∧ (upload_file "k" [("a.txt", ⟨1, "t0", "t0", "d0", some "id1", "alice", "x"⟩)]
        "a.txt" "bob" false "dNEW" (fun _ => true)
        (UploadResp.http 200 (some "id2")) "t1").1
      = [("a.txt", ⟨2, "t0", "t1", "d0", some "id1", "bob", "x"⟩)] :=
  ⟨⟨by decide, by decide, by decide⟩,
   (upload_file_repeat_frame
      [("a.txt", ⟨1, "t0", "t0", "d0", some "id1", "alice", "x"⟩)]
      "a.txt" "bob" "k" "t1" "dNEW"
      ⟨1, "t0", "t0", "d0", some "id1", "alice", "x"⟩ (some "id2") false
      (by decide) (by decide) (by decide)).1⟩

/-! ## C6 -/

/-- Reading back the document written for one record restores the record
exactly. -/
theorem decodeFileRecord_encode (r : FileRecord) :
    decodeFileRecord (encodeFileRecord r) = some r := by
  cases r with
  | mk c fu lu h fid ub uf => cases fid <;> rfl

/-- Reading back the document written for a whole registry restores it
entry for entry. -/
theorem decodeRegistry_encode : ∀ reg : Registry,
    decodeRegistry (reg.map (fun p => (p.1, encodeFileRecord p.2))) = some reg := by
  intro reg
  induction reg with
  | nil => rfl
  | cons p rest ih => simp [decodeRegistry, decodeFileRecord_encode, ih]

/-- C6: for every sequence of upserts (hence every N of records it
produces, N ≥ 0), saving the in-memory registry with `save_file_history`
and reloading it with `load_file_history` restores the registry
field-for-field. -/
theorem registry_round_trip (ops : List UpsertOp) :
    load_file_history (some (save_file_history (buildRegistry ops)))
      = buildRegistry ops := by
  simp [load_file_history, save_file_history, decodeRegistry_encode]

end Novrintech
